import Mathlib

/-!
# Verification of the SPIROLINK web backend (src/server.js, main variant)

Shallow embedding of the email-dispatch subsystem and the HTTP handlers of
`src/server.js`.  The repository file contains several concatenated variants of
the server; the claims target the final ("main") variant, the one whose
transport selector prioritises SendGrid (lines 700-1047 of the concatenated
file), plus, where a claim names it, the first variant's `/chat` catch handler
(lines 35-84).

JavaScript values that can flow through `req.body` are modelled by `JSValue`
(strings, integers, booleans, `null`, `undefined`); JS truthiness and
string-coercion are modelled explicitly.  Network sends are modelled by an
oracle (`SendOutcome` for each of the at most two sends of one dispatch);
a dispatch returns the HTTP response, the ordered list of attempted sends,
and the `console.log` lines of the disabled branch.
-/

namespace Spirolink

/-- A JavaScript value as it can appear in a parsed JSON body / env var use. -/
inductive JSValue where
  | undefined : JSValue
  | null : JSValue
  | bool : Bool → JSValue
  | num : Int → JSValue
  | str : String → JSValue
deriving DecidableEq, Repr

/-- JS truthiness: `undefined`, `null`, `false`, `0` and `""` are falsy. -/
def truthy : JSValue → Bool
  | .undefined => false
  | .null => false
  | .bool b => b
  | .num n => n != 0
  | .str s => s != ""

/-- JS string coercion, as performed by template-literal interpolation. -/
def toJSString : JSValue → String
  | .undefined => "undefined"
  | .null => "null"
  | .bool b => if b then "true" else "false"
  | .num n => toString n
  | .str s => s

/-- Whether a JS value is a string. -/
def isStr : JSValue → Bool
  | .str _ => true
  | _ => false

/-- Whitespace as stripped by `String.prototype.trim` (ASCII part; the claims
only distinguish blank from non-blank strings). -/
def isJSWhitespace (c : Char) : Bool :=
  c = ' ' || c = '\t' || c = '\n' || c = '\r' || c = '\x0b' || c = '\x0c'

/-- Drop leading whitespace from a character list. -/
def dropLeadingWs : List Char → List Char
  | [] => []
  | c :: cs => if isJSWhitespace c then dropLeadingWs cs else c :: cs

/-- Model of `s.trim()`: strip leading and trailing whitespace. -/
def jsTrimStr (s : String) : String :=
  String.mk (dropLeadingWs (dropLeadingWs s.data.reverse).reverse)

/-- Model of `message.trim()`: succeeds on strings, throws a TypeError on any other
value that reaches the call (only truthy non-strings can reach it). -/
def jsTrim : JSValue → Except String String
  | .str s => .ok (jsTrimStr s)
  | _ => .error "message.trim is not a function"

/-- Model of `message.replace(/\n/g, "<br>")` on the underlying character list. -/
def nlToBrChars : List Char → List Char
  | [] => []
  | c :: cs =>
    if c = '\n' then '<' :: 'b' :: 'r' :: '>' :: nlToBrChars cs
    else c :: nlToBrChars cs

/-- Model of `s.replace(/\n/g, "<br>")` on strings. -/
def nlToBr (s : String) : String := String.mk (nlToBrChars s.data)

/-- Model of `message.replace(/\n/g, "<br>")`: throws a TypeError when `message` is not
a string. -/
def jsReplaceNewlines : JSValue → Except String String
  | .str s => .ok (nlToBr s)
  | _ => .error "message.replace is not a function"

/-- Does `hay` start with `needle` (character lists)? -/
def startsWithChars : List Char → List Char → Bool
  | [], _ => true
  | _ :: _, [] => false
  | a :: as, b :: bs => a = b && startsWithChars as bs

/-- Does the character list contain `needle` as a contiguous run? -/
def hasSubChars (needle : List Char) : List Char → Bool
  | [] => startsWithChars needle []
  | c :: cs => startsWithChars needle (c :: cs) || hasSubChars needle cs

/-- Does string `hay` contain string `needle` as a substring? -/
def strContains (hay needle : String) : Bool := hasSubChars needle.data hay.data

/-- The environment variables the email transport selector consults
(`none` models an unset variable). -/
structure Env where
  SENDGRID_API_KEY : Option String := Option.none
  RESEND_API_KEY : Option String := Option.none
  EMAIL_USER : Option String := Option.none
  EMAIL_PASSWORD : Option String := Option.none
deriving DecidableEq, Repr

/-- Truthiness of a `process.env` entry (unset or empty string is falsy). -/
def envTruthy : Option String → Bool
  | Option.some s => s != ""
  | Option.none => false

/-- The values the module-level `emailService` string variable takes:
`'none'` (initial value, line 734), `'sendgrid'`, `'resend'`, `'gmail'`,
`'ethereal'`, `'disabled'`. -/
inductive EmailService where
  | none : EmailService
  | sendgrid : EmailService
  | resend : EmailService
  | gmail : EmailService
  | ethereal : EmailService
  | disabled : EmailService
deriving DecidableEq, Repr

/-- The string stored in `emailService` for each state. -/
def serviceName : EmailService → String
  | .none => "none"
  | .sendgrid => "sendgrid"
  | .resend => "resend"
  | .gmail => "gmail"
  | .ethereal => "ethereal"
  | .disabled => "disabled"

/-- The module-level provider state: `emailService` together with whether the
`transporter` and `resend` handles have been assigned. -/
structure ProviderState where
  service : EmailService
  transporterSet : Bool
  resendSet : Bool
deriving DecidableEq, Repr

/-- The state before `initializeEmailTransport` has run:
`emailService = 'none'`, `transporter` and `resend` undefined (lines 734-736). -/
def initialProviderState : ProviderState := ⟨.none, false, false⟩

/-- The selector `initializeEmailTransport` (lines 738-796): priority chain
SendGrid key → Resend key → Gmail user+password → Ethereal test account →
disabled.  `etherealOk` models whether `nodemailer.createTestAccount()`
succeeds (a network call).  The SDK constructor calls themselves
(`sgMail.setApiKey`, `new Resend`, `createTransport`) are non-throwing. -/
def initializeEmailTransport (env : Env) (etherealOk : Bool) : ProviderState :=
  if envTruthy env.SENDGRID_API_KEY then ⟨.sendgrid, false, false⟩
  else if envTruthy env.RESEND_API_KEY then ⟨.resend, false, true⟩
  else if envTruthy env.EMAIL_USER && envTruthy env.EMAIL_PASSWORD then ⟨.gmail, true, false⟩
  else if etherealOk then ⟨.ethereal, true, false⟩
  else ⟨.disabled, false, false⟩

/-- A JSON HTTP response: status code plus the fields the handlers emit
(absent fields are `none`). -/
structure HttpResponse where
  status : Nat
  success : Bool
  error : Option String := Option.none
  message : Option String := Option.none
  service : Option String := Option.none
  warning : Option String := Option.none
  reply : Option String := Option.none
deriving DecidableEq, Repr

/-- One attempted provider send (`sgMail.send`, `resend.emails.send` or
`transporter.sendMail`), recorded in order of attempt. -/
structure SendAttempt where
  provider : String
  fromAddr : String
  toAddr : String
  subject : String
  html : String
deriving DecidableEq, Repr

/-- Outcome of one provider send, decided by the oracle. -/
inductive SendOutcome where
  | ok : SendOutcome
  | fail : String → SendOutcome
deriving DecidableEq, Repr

/-- The parsed body of a `POST /contact` request. -/
structure ContactBody where
  name : JSValue := .undefined
  email : JSValue := .undefined
  phone : JSValue := .undefined
  serviceType : JSValue := .undefined
  message : JSValue := .undefined
deriving DecidableEq, Repr

/-- Result of one `/contact` dispatch: the provider state after the handler
returns, the HTTP response, the attempted sends in order, and the
`console.log` lines of the disabled branch. -/
structure ContactResult where
  state : ProviderState
  response : HttpResponse
  sends : List SendAttempt
  logs : List String
deriving DecidableEq, Repr

/-- The `emailBody` template (lines 878-888), with the message already run
through `.replace(/\n/g, "<br>")`. -/
def renderEmailBody (name email phone serviceType : JSValue) (msgHtml : String) : String :=
  "\n      <h2>New Contact Form Submission</h2>\n      <p><strong>Name:</strong> "
    ++ toJSString name
    ++ "</p>\n      <p><strong>Email:</strong> "
    ++ toJSString email
    ++ "</p>\n      <p><strong>Phone:</strong> "
    ++ (if truthy phone then toJSString phone else "N/A")
    ++ "</p>\n      <p><strong>Service:</strong> "
    ++ (if truthy serviceType then toJSString serviceType else "N/A")
    ++ "</p>\n      <p><strong>Message:</strong></p>\n      <p>"
    ++ msgHtml
    ++ "</p>\n      <hr>\n      <p><em>Reply to: "
    ++ toJSString email
    ++ "</em></p>\n    "

/-- The `confirmationBody` template (lines 890-896). -/
def renderConfirmationBody (name : JSValue) : String :=
  "\n      <h3>Hello "
    ++ toJSString name
    ++ ",</h3>\n      <p>Thank you for contacting SPIROLINK.</p>\n      <p>We have received your message and will get back to you shortly.</p>\n      <br>\n      <p>Regards,<br>SPIROLINK Team</p>\n    "

/-- Subject of the operator notification:
`` `New Contact Form - ${serviceType || "General"}` ``. -/
def operatorSubject (serviceType : JSValue) : String :=
  "New Contact Form - " ++ (if truthy serviceType then toJSString serviceType else "General")

/-- Fixed subject of the submitter confirmation. -/
def confirmationSubject : String := "We received your message - SPIROLINK"

/-- The 400 validation response of `POST /contact` (lines 871-876). -/
def validationResponse : HttpResponse :=
  { status := 400, success := false, error := Option.some "Name, email, and message are required" }

/-- The 500 response produced by the outer catch of `POST /contact`
(lines 1017-1023). -/
def contactCatchResponse (msg : String) : HttpResponse :=
  { status := 500, success := false, error := Option.some ("Failed to send email: " ++ msg) }

/-- The 200 success response after both sends succeed (lines 1012-1016). -/
def sentResponse (svc : EmailService) : HttpResponse :=
  { status := 200, success := true, message := Option.some "Email sent successfully",
    service := Option.some (serviceName svc) }

/-- The 200 response of the disabled branch (lines 1002-1007). -/
def disabledResponse : HttpResponse :=
  { status := 200, success := true,
    message := Option.some "Message received (email service currently disabled)",
    service := Option.some "disabled",
    warning := Option.some "Configure SENDGRID_API_KEY, RESEND_API_KEY, or EMAIL_USER/PASSWORD" }

/-- The `console.log` lines of the disabled branch (lines 994-1000); note the
confirmation body itself is never logged, only the confirmation recipient. -/
def disabledLogs (subj emailBody emailStr : String) : List String :=
  [ "📧 EMAIL SERVICE DISABLED - Logging email instead:",
    "To: contact@spirolink.com",
    "Subject: " ++ subj,
    "Body: " ++ emailBody,
    "---",
    "Confirmation to: " ++ emailStr,
    "---" ]

/-- The per-provider wrapper put on a send error before rethrowing
(lines 920-923, 942-945, 964-967, 988-991). -/
def providerErrLabel : EmailService → String
  | .sendgrid => "SendGrid failed"
  | .resend => "Resend API failed"
  | .gmail => "Gmail SMTP failed"
  | .ethereal => "Ethereal SMTP failed"
  | _ => ""

/-- The common shape of all four provider branches: send the operator
notification, then (only if it succeeded) the confirmation; a failed send is
rethrown with the provider's error label and caught by the outer catch.
The handler body never assigns the module-level state, so the state in the
result is the input state. -/
def dispatchBranch (st : ProviderState) (svc : EmailService) (prov fromAddr : String)
    (o1 o2 : SendOutcome) (to1 subj1 html1 to2 subj2 html2 : String) : ContactResult :=
  let a1 : SendAttempt := ⟨prov, fromAddr, to1, subj1, html1⟩
  match o1 with
  | .fail m => ⟨st, contactCatchResponse (providerErrLabel svc ++ ": " ++ m), [a1], []⟩
  | .ok =>
    let a2 : SendAttempt := ⟨prov, fromAddr, to2, subj2, html2⟩
    match o2 with
    | .fail m => ⟨st, contactCatchResponse (providerErrLabel svc ++ ": " ++ m), [a1, a2], []⟩
    | .ok => ⟨st, sentResponse svc, [a1, a2], []⟩

/-- The `POST /contact` handler of the main variant (lines 866-1024).
`o1`, `o2` are the oracle outcomes of the first and second send attempt.
The handler body contains no assignment to `emailService`, `transporter` or
`resend`, so the returned state is the input state in every branch. -/
def contactHandler (st : ProviderState) (env : Env) (o1 o2 : SendOutcome)
    (body : ContactBody) : ContactResult :=
  if !truthy body.name || !truthy body.email || !truthy body.message then
    ⟨st, validationResponse, [], []⟩
  else
    match jsReplaceNewlines body.message with
    | .error m => ⟨st, contactCatchResponse m, [], []⟩
    | .ok msgHtml =>
      let emailBody := renderEmailBody body.name body.email body.phone body.serviceType msgHtml
      let confirmationBody := renderConfirmationBody body.name
      let subj1 := operatorSubject body.serviceType
      let emailStr := toJSString body.email
      if st.service = .sendgrid then
        dispatchBranch st .sendgrid "sendgrid" "noreply@spirolink.com" o1 o2
          "contact@spirolink.com" subj1 emailBody emailStr confirmationSubject confirmationBody
      else if st.service = .resend ∧ st.resendSet then
        dispatchBranch st .resend "resend" "noreply@spirolink.com" o1 o2
          "contact@spirolink.com" subj1 emailBody emailStr confirmationSubject confirmationBody
      else if st.service = .gmail ∧ st.transporterSet then
        dispatchBranch st .gmail "gmail" (env.EMAIL_USER.getD "") o1 o2
          "contact@spirolink.com" subj1 emailBody emailStr confirmationSubject confirmationBody
      else if st.service = .ethereal ∧ st.transporterSet then
        dispatchBranch st .ethereal "ethereal" "noreply@spirolink.test" o1 o2
          "contact@spirolink.com" subj1 emailBody emailStr confirmationSubject confirmationBody
      else if st.service = .disabled then
        ⟨st, disabledResponse, [], disabledLogs subj1 emailBody emailStr⟩
      else
        ⟨st, contactCatchResponse "Email service not properly initialized", [], []⟩

/-- An error thrown by the upstream completion call (`status` is the HTTP
status attached by the SDK, when any). -/
structure ChatError where
  status : Option Int := Option.none
  message : String
deriving DecidableEq, Repr

/-- The 400 response of `POST /chat`. -/
def chatRequiredResponse : HttpResponse :=
  { status := 400, success := false, error := Option.some "Message is required" }

/-- The `POST /chat` handler of the main variant (lines 819-861).
`upstream` is the outcome of the completion call: an error, or the (possibly
absent / empty) content of the first choice.  The catch handler returns 500
with the error's message unconditionally (lines 854-860). -/
def chatHandlerMain (upstream : Except ChatError (Option String))
    (message : JSValue) : HttpResponse :=
  if !truthy message then chatRequiredResponse
  else
    match jsTrim message with
    | .error m => { status := 500, success := false, error := Option.some m }
    | .ok t =>
      if t = "" then chatRequiredResponse
      else
        match upstream with
        | .error e => { status := 500, success := false, error := Option.some e.message }
        | .ok r =>
          match r with
          | Option.none =>
            { status := 500, success := false, error := Option.some "No response from OpenAI" }
          | Option.some rep =>
            if rep = "" then
              { status := 500, success := false, error := Option.some "No response from OpenAI" }
            else { status := 200, success := true, reply := Option.some rep }

/-- The `POST /chat` handler of the first variant (lines 35-84), whose catch
handler maps upstream status 401 and 429 to matching client statuses. -/
def chatHandlerFirst (upstream : Except ChatError (Option String))
    (message : JSValue) : HttpResponse :=
  if !truthy message then chatRequiredResponse
  else
    match message with
    | .str s =>
      if jsTrimStr s = "" then chatRequiredResponse
      else
        match upstream with
        | .error e =>
          if e.status = Option.some 401 then
            { status := 401, success := false,
              error := Option.some "Invalid API key - check your OpenAI account" }
          else if e.status = Option.some 429 then
            { status := 429, success := false,
              error := Option.some "OpenAI rate limit exceeded. Enable billing on your OpenAI account." }
          else { status := 500, success := false, error := Option.some e.message }
        | .ok r =>
          match r with
          | Option.none =>
            { status := 500, success := false, error := Option.some "No response from OpenAI" }
          | Option.some rep =>
            if rep = "" then
              { status := 500, success := false, error := Option.some "No response from OpenAI" }
            else { status := 200, success := true, reply := Option.some rep }
    | _ => chatRequiredResponse

/-! ## Shared fixtures and helper lemmas -/

/-- The spec's concrete scenario request. -/
def janeBody : ContactBody :=
  { name := .str "Jane Doe", email := .str "jane@example.com",
    message := .str "Need fiber install" }

/-- An environment in which only the SendGrid key is set. -/
def sendgridOnlyEnv : Env := { SENDGRID_API_KEY := Option.some "sg-key" }

/-- A selected provider service in the main variant: one of the four branches
of `POST /contact` that actually send. -/
def usableService (svc : EmailService) : Prop :=
  svc = .sendgrid ∨ svc = .resend ∨ svc = .gmail ∨ svc = .ethereal

lemma init_handles (env : Env) (ok : Bool) :
    ((initializeEmailTransport env ok).service = .resend →
        (initializeEmailTransport env ok).resendSet = true) ∧
    ((initializeEmailTransport env ok).service = .gmail →
        (initializeEmailTransport env ok).transporterSet = true) ∧
    ((initializeEmailTransport env ok).service = .ethereal →
        (initializeEmailTransport env ok).transporterSet = true) := by
  unfold initializeEmailTransport
  repeat' split
  all_goals refine ⟨?_, ?_, ?_⟩ <;> intro h <;> simp_all

lemma truthy_str_of_ne {s : String} (h : s ≠ "") : truthy (.str s) = true := by
  simp [truthy, h]

lemma contactHandler_of_falsy (st : ProviderState) (env : Env) (o1 o2 : SendOutcome)
    (body : ContactBody)
    (h : truthy body.name = false ∨ truthy body.email = false ∨ truthy body.message = false) :
    contactHandler st env o1 o2 body = ⟨st, validationResponse, [], []⟩ := by
  unfold contactHandler
  rcases h with h | h | h <;> simp [h]

lemma dispatchBranch_state (st : ProviderState) (svc : EmailService) (prov fromAddr : String)
    (o1 o2 : SendOutcome) (to1 subj1 html1 to2 subj2 html2 : String) :
    (dispatchBranch st svc prov fromAddr o1 o2 to1 subj1 html1 to2 subj2 html2).state = st := by
  cases o1 <;> cases o2 <;> rfl

lemma dispatchBranch_status_ne_400 (st : ProviderState) (svc : EmailService)
    (prov fromAddr : String) (o1 o2 : SendOutcome)
    (to1 subj1 html1 to2 subj2 html2 : String) :
    (dispatchBranch st svc prov fromAddr o1 o2 to1 subj1 html1 to2 subj2 html2).response.status
      ≠ 400 := by
  cases o1 <;> cases o2 <;> simp [dispatchBranch, contactCatchResponse, sentResponse]

lemma contactHandler_status_of_truthy (st : ProviderState) (env : Env) (o1 o2 : SendOutcome)
    (body : ContactBody) (hn : truthy body.name = true) (he : truthy body.email = true)
    (hm : truthy body.message = true) :
    (contactHandler st env o1 o2 body).response.status ≠ 400 := by
  unfold contactHandler
  split
  · simp_all
  · split
    · simp [contactCatchResponse]
    · split
      · apply dispatchBranch_status_ne_400
      · split
        · apply dispatchBranch_status_ne_400
        · split
          · apply dispatchBranch_status_ne_400
          · split
            · apply dispatchBranch_status_ne_400
            · split
              · simp [disabledResponse]
              · simp [contactCatchResponse]

/-! ## Claims -/

/-- C4: for every `/contact` request in which name, email, or message is falsy
(missing or empty), the handler returns the 400 validation response with error
"Name, email, and message are required", attempts no provider send, and logs
nothing. -/
theorem c4_validation_rejects_without_send (st : ProviderState) (env : Env)
    (o1 o2 : SendOutcome) (body : ContactBody)
    (h : truthy body.name = false ∨ truthy body.email = false ∨ truthy body.message = false) :
    contactHandler st env o1 o2 body = ⟨st, validationResponse, [], []⟩ ∧
    (contactHandler st env o1 o2 body).response.status = 400 ∧
    (contactHandler st env o1 o2 body).response.error =
      Option.some "Name, email, and message are required" ∧
    (contactHandler st env o1 o2 body).sends = [] := by
  have hc := contactHandler_of_falsy st env o1 o2 body h
  refine ⟨hc, ?_, ?_, ?_⟩ <;> rw [hc] <;> rfl

/-- Witness for C4 at the spec's concrete scenario: empty `message`. -/
theorem c4_validation_rejects_without_send_witness :
    contactHandler ⟨.sendgrid, false, false⟩ {} .ok .ok
        { name := .str "Jane Doe", email := .str "jane@example.com", message := .str "" } =
      ⟨⟨.sendgrid, false, false⟩, validationResponse, [], []⟩ := by
  exact (c4_validation_rejects_without_send _ _ _ _ _ (Or.inr (Or.inr (by decide)))).1

/-- C2 (amended): the selector picks the first of SendGrid key → Resend key →
Gmail user+password whose configuration is present; when none of the three is
present it attempts an Ethereal test account and the terminal state is
ETHEREAL on success and DISABLED exactly when that creation fails. -/
theorem c2_selector_priority (env : Env) (ok : Bool) :
    (envTruthy env.SENDGRID_API_KEY = true →
        (initializeEmailTransport env ok).service = .sendgrid) ∧
    (envTruthy env.SENDGRID_API_KEY = false → envTruthy env.RESEND_API_KEY = true →
        (initializeEmailTransport env ok).service = .resend) ∧
    (envTruthy env.SENDGRID_API_KEY = false → envTruthy env.RESEND_API_KEY = false →
        (envTruthy env.EMAIL_USER && envTruthy env.EMAIL_PASSWORD) = true →
        (initializeEmailTransport env ok).service = .gmail) ∧
    (envTruthy env.SENDGRID_API_KEY = false → envTruthy env.RESEND_API_KEY = false →
        (envTruthy env.EMAIL_USER && envTruthy env.EMAIL_PASSWORD) = false →
        (initializeEmailTransport env ok).service =
          (if ok then .ethereal else .disabled)) ∧
    ((initializeEmailTransport env ok).service = .disabled ↔
        (envTruthy env.SENDGRID_API_KEY = false ∧ envTruthy env.RESEND_API_KEY = false ∧
         (envTruthy env.EMAIL_USER && envTruthy env.EMAIL_PASSWORD) = false ∧ ok = false)) := by
  unfold initializeEmailTransport
  repeat' split <;> simp_all

/-- Witness for C2 (amended) at concrete environments. -/
theorem c2_selector_priority_witness :
    (initializeEmailTransport sendgridOnlyEnv false).service = .sendgrid ∧
    (initializeEmailTransport {} true).service = .ethereal ∧
    (initializeEmailTransport {} false).service = .disabled := by
  refine ⟨(c2_selector_priority sendgridOnlyEnv false).1 (by decide), ?_, ?_⟩
  · have h := (c2_selector_priority {} true).2.2.2.1 (by decide) (by decide) (by decide)
    simpa using h
  · have h := (c2_selector_priority {} false).2.2.2.1 (by decide) (by decide) (by decide)
    simpa using h

/-- Counterexample to C2 as stated: with no provider configuration present at
all, the terminal selected state is `ethereal` (when the Ethereal test-account
creation succeeds), not `disabled`. -/
theorem c2_counterexample :
    initializeEmailTransport {} true = ⟨.ethereal, true, false⟩ ∧
    (initializeEmailTransport {} true).service ≠ .disabled := by
  decide

/-- Counterexample to C3 as stated: a valid contact request arriving while the
state is still the initial one observes `none` (not `disabled`) and receives
an HTTP 500 initialization error, not the Disabled (200) outcome. -/
theorem c3_counterexample :
    initialProviderState.service ≠ .disabled ∧
    (contactHandler initialProviderState {} .ok .ok janeBody).response.status = 500 ∧
    (contactHandler initialProviderState {} .ok .ok janeBody).response.service ≠
      Option.some "disabled" ∧
    (contactHandler initialProviderState {} .ok .ok janeBody).response.error =
      Option.some "Failed to send email: Email service not properly initialized" ∧
    (contactHandler initialProviderState {} .ok .ok janeBody).sends = [] := by
  set_option maxRecDepth 100000 in decide

/-- C3 (amended): once the asynchronous startup selection completes, the
observable provider state is one of the enumerated providers or "disabled"
(never the initial "none"); a valid contact request arriving before it
completes observes the initial "none" state and receives the HTTP 500
"Email service not properly initialized" error, with no send attempted and
without blocking — not the Disabled success outcome. -/
theorem c3_pre_init_observation (env2 : Env) (ok : Bool) (env : Env)
    (o1 o2 : SendOutcome) (body : ContactBody) (n e m : String)
    (hn : body.name = .str n) (hn0 : n ≠ "")
    (he : body.email = .str e) (he0 : e ≠ "")
    (hm : body.message = .str m) (hm0 : m ≠ "") :
    (initializeEmailTransport env2 ok).service ≠ .none ∧
    contactHandler initialProviderState env o1 o2 body =
      ⟨initialProviderState,
       contactCatchResponse "Email service not properly initialized", [], []⟩ := by
  constructor
  · unfold initializeEmailTransport
    repeat' split
    all_goals simp
  · unfold contactHandler
    rw [hn, hm, he]
    simp only [truthy_str_of_ne hn0, truthy_str_of_ne he0, truthy_str_of_ne hm0]
    simp [jsReplaceNewlines, initialProviderState]

/-- Witness for C3 (amended) at the spec's concrete scenario request. -/
theorem c3_pre_init_observation_witness :
    (initializeEmailTransport {} true).service ≠ .none ∧
    contactHandler initialProviderState {} .ok .ok janeBody =
      ⟨initialProviderState,
       contactCatchResponse "Email service not properly initialized", [], []⟩ :=
  c3_pre_init_observation {} true {} .ok .ok janeBody
    "Jane Doe" "jane@example.com" "Need fiber install"
    rfl (by decide) rfl (by decide) rfl (by decide)

/-- C5 (amended): a valid contact request dispatched while the selected state
is `disabled` attempts no send and yields HTTP 200 with `success:true`,
`service:"disabled"` and a non-empty warning; the outcome carries, via the
logs, the rendered operator-notification message and the confirmation
recipient's address (but not the rendered confirmation message, see the
counterexample). -/
theorem c5_disabled_outcome (st : ProviderState) (env : Env) (o1 o2 : SendOutcome)
    (body : ContactBody) (n e m : String)
    (hn : body.name = .str n) (hn0 : n ≠ "")
    (he : body.email = .str e) (he0 : e ≠ "")
    (hm : body.message = .str m) (hm0 : m ≠ "")
    (hd : st.service = .disabled) :
    contactHandler st env o1 o2 body =
      ⟨st, disabledResponse, [],
       disabledLogs (operatorSubject body.serviceType)
         (renderEmailBody body.name body.email body.phone body.serviceType (nlToBr m)) e⟩ ∧
    (contactHandler st env o1 o2 body).response.status = 200 ∧
    (contactHandler st env o1 o2 body).response.success = true ∧
    (contactHandler st env o1 o2 body).response.service = Option.some "disabled" ∧
    (∃ w, (contactHandler st env o1 o2 body).response.warning = Option.some w ∧ w ≠ "") ∧
    (contactHandler st env o1 o2 body).sends = [] ∧
    ("Body: " ++ renderEmailBody body.name body.email body.phone body.serviceType (nlToBr m))
      ∈ (contactHandler st env o1 o2 body).logs ∧
    ("Confirmation to: " ++ e) ∈ (contactHandler st env o1 o2 body).logs := by
  have hc : contactHandler st env o1 o2 body =
      ⟨st, disabledResponse, [],
       disabledLogs (operatorSubject body.serviceType)
         (renderEmailBody body.name body.email body.phone body.serviceType (nlToBr m)) e⟩ := by
    unfold contactHandler
    rw [hn, hm, he]
    simp only [truthy_str_of_ne hn0, truthy_str_of_ne he0, truthy_str_of_ne hm0]
    simp [jsReplaceNewlines, hd, toJSString]
  refine ⟨hc, ?_, ?_, ?_, ?_, ?_, ?_, ?_⟩ <;> rw [hc] <;>
    first
    | rfl
    | exact ⟨_, rfl, by decide⟩
    | simp [disabledLogs]

/-- Witness for C5 (amended) at the spec's concrete scenario request. -/
theorem c5_disabled_outcome_witness :
    contactHandler ⟨.disabled, false, false⟩ {} .ok .ok janeBody =
      ⟨⟨.disabled, false, false⟩, disabledResponse, [],
       disabledLogs (operatorSubject janeBody.serviceType)
         (renderEmailBody janeBody.name janeBody.email janeBody.phone janeBody.serviceType
           (nlToBr "Need fiber install")) "jane@example.com"⟩ :=
  (c5_disabled_outcome ⟨.disabled, false, false⟩ {} .ok .ok janeBody
    "Jane Doe" "jane@example.com" "Need fiber install"
    rfl (by decide) rfl (by decide) rfl (by decide) rfl).1

/-- Counterexample to C5 as stated: the Disabled outcome does not carry both
rendered messages — neither the response fields nor the logged lines contain
the rendered submitter-confirmation message anywhere. -/
theorem c5_counterexample :
    (((contactHandler ⟨.disabled, false, false⟩ {} .ok .ok janeBody).logs ++
        [((contactHandler ⟨.disabled, false, false⟩ {} .ok .ok janeBody).response.message.getD ""),
         ((contactHandler ⟨.disabled, false, false⟩ {} .ok .ok janeBody).response.warning.getD ""),
         ((contactHandler ⟨.disabled, false, false⟩ {} .ok .ok janeBody).response.error.getD ""),
         ((contactHandler ⟨.disabled, false, false⟩ {} .ok .ok janeBody).response.service.getD "")]).any
      (fun s => strContains s (renderConfirmationBody (.str "Jane Doe")))) = false := by
  set_option maxRecDepth 200000 in decide

/-! ## Branch-selection lemmas for the four usable providers -/

lemma contactHandler_sendgrid_branch (st : ProviderState) (env : Env) (o1 o2 : SendOutcome)
    (body : ContactBody) (n e m : String)
    (hn : body.name = .str n) (hn0 : n ≠ "") (he : body.email = .str e) (he0 : e ≠ "")
    (hm : body.message = .str m) (hm0 : m ≠ "")
    (hsvc : st.service = .sendgrid) :
    contactHandler st env o1 o2 body =
      dispatchBranch st .sendgrid "sendgrid" "noreply@spirolink.com" o1 o2
        "contact@spirolink.com" (operatorSubject body.serviceType)
        (renderEmailBody body.name body.email body.phone body.serviceType (nlToBr m))
        (toJSString body.email) confirmationSubject (renderConfirmationBody body.name) := by
  unfold contactHandler
  rw [hn, hm, he]
  simp only [truthy_str_of_ne hn0, truthy_str_of_ne he0, truthy_str_of_ne hm0]
  simp [jsReplaceNewlines, hsvc]

lemma contactHandler_resend_branch (st : ProviderState) (env : Env) (o1 o2 : SendOutcome)
    (body : ContactBody) (n e m : String)
    (hn : body.name = .str n) (hn0 : n ≠ "") (he : body.email = .str e) (he0 : e ≠ "")
    (hm : body.message = .str m) (hm0 : m ≠ "")
    (hsvc : st.service = .resend) (hset : st.resendSet = true) :
    contactHandler st env o1 o2 body =
      dispatchBranch st .resend "resend" "noreply@spirolink.com" o1 o2
        "contact@spirolink.com" (operatorSubject body.serviceType)
        (renderEmailBody body.name body.email body.phone body.serviceType (nlToBr m))
        (toJSString body.email) confirmationSubject (renderConfirmationBody body.name) := by
  unfold contactHandler
  rw [hn, hm, he]
  simp only [truthy_str_of_ne hn0, truthy_str_of_ne he0, truthy_str_of_ne hm0]
  simp [jsReplaceNewlines, hsvc, hset]

lemma contactHandler_gmail_branch (st : ProviderState) (env : Env) (o1 o2 : SendOutcome)
    (body : ContactBody) (n e m : String)
    (hn : body.name = .str n) (hn0 : n ≠ "") (he : body.email = .str e) (he0 : e ≠ "")
    (hm : body.message = .str m) (hm0 : m ≠ "")
    (hsvc : st.service = .gmail) (hset : st.transporterSet = true) :
    contactHandler st env o1 o2 body =
      dispatchBranch st .gmail "gmail" (env.EMAIL_USER.getD "") o1 o2
        "contact@spirolink.com" (operatorSubject body.serviceType)
        (renderEmailBody body.name body.email body.phone body.serviceType (nlToBr m))
        (toJSString body.email) confirmationSubject (renderConfirmationBody body.name) := by
  unfold contactHandler
  rw [hn, hm, he]
  simp only [truthy_str_of_ne hn0, truthy_str_of_ne he0, truthy_str_of_ne hm0]
  simp [jsReplaceNewlines, hsvc, hset]

lemma contactHandler_ethereal_branch (st : ProviderState) (env : Env) (o1 o2 : SendOutcome)
    (body : ContactBody) (n e m : String)
    (hn : body.name = .str n) (hn0 : n ≠ "") (he : body.email = .str e) (he0 : e ≠ "")
    (hm : body.message = .str m) (hm0 : m ≠ "")
    (hsvc : st.service = .ethereal) (hset : st.transporterSet = true) :
    contactHandler st env o1 o2 body =
      dispatchBranch st .ethereal "ethereal" "noreply@spirolink.test" o1 o2
        "contact@spirolink.com" (operatorSubject body.serviceType)
        (renderEmailBody body.name body.email body.phone body.serviceType (nlToBr m))
        (toJSString body.email) confirmationSubject (renderConfirmationBody body.name) := by
  unfold contactHandler
  rw [hn, hm, he]
  simp only [truthy_str_of_ne hn0, truthy_str_of_ne he0, truthy_str_of_ne hm0]
  simp [jsReplaceNewlines, hsvc, hset]

/-- C1: with a usable provider selected by the startup selector, a valid
contact request dispatches the operator notification first and the
confirmation second, sequentially; if the first send fails the second is not
attempted and the outcome is the HTTP 500 provider-send failure naming the
provider and cause; every attempted send goes through the selected provider
(no fallback). -/
theorem c1_sequential_dispatch_fail_loud (env2 : Env) (ok2 : Bool) (st : ProviderState)
    (hst : st = initializeEmailTransport env2 ok2)
    (husable : usableService st.service)
    (env : Env) (o1 o2 : SendOutcome) (body : ContactBody) (n e m : String)
    (hn : body.name = .str n) (hn0 : n ≠ "")
    (he : body.email = .str e) (he0 : e ≠ "")
    (hm : body.message = .str m) (hm0 : m ≠ "") :
    ((contactHandler st env o1 o2 body).sends.map (fun a => a.toAddr) =
      match o1 with
      | .ok => ["contact@spirolink.com", e]
      | .fail _ => ["contact@spirolink.com"]) ∧
    ((contactHandler st env o1 o2 body).sends.map (fun a => a.subject) =
      match o1 with
      | .ok => [operatorSubject body.serviceType, confirmationSubject]
      | .fail _ => [operatorSubject body.serviceType]) ∧
    ((contactHandler st env o1 o2 body).sends.map (fun a => a.html) =
      match o1 with
      | .ok => [renderEmailBody body.name body.email body.phone body.serviceType (nlToBr m),
                renderConfirmationBody body.name]
      | .fail _ =>
          [renderEmailBody body.name body.email body.phone body.serviceType (nlToBr m)]) ∧
    (∀ a ∈ (contactHandler st env o1 o2 body).sends,
        a.provider = serviceName st.service) ∧
    (∀ msg, o1 = .fail msg →
        (contactHandler st env o1 o2 body).response =
          contactCatchResponse (providerErrLabel st.service ++ ": " ++ msg) ∧
        (contactHandler st env o1 o2 body).response.status = 500 ∧
        (contactHandler st env o1 o2 body).sends.length = 1) ∧
    (∀ msg, o1 = .ok → o2 = .fail msg →
        (contactHandler st env o1 o2 body).response =
          contactCatchResponse (providerErrLabel st.service ++ ": " ++ msg)) ∧
    (o1 = .ok → o2 = .ok →
        (contactHandler st env o1 o2 body).response = sentResponse st.service) := by
  obtain ⟨hres, hgm, heth⟩ := init_handles env2 ok2
  rw [← hst] at hres hgm heth
  rcases husable with hsvc | hsvc | hsvc | hsvc
  · rw [contactHandler_sendgrid_branch st env o1 o2 body n e m hn hn0 he he0 hm hm0 hsvc, hsvc, he]
    cases o1 <;> cases o2 <;>
      simp [dispatchBranch, serviceName, providerErrLabel, toJSString, contactCatchResponse]
  · rw [contactHandler_resend_branch st env o1 o2 body n e m hn hn0 he he0 hm hm0 hsvc
      (hres hsvc), hsvc, he]
    cases o1 <;> cases o2 <;>
      simp [dispatchBranch, serviceName, providerErrLabel, toJSString, contactCatchResponse]
  · rw [contactHandler_gmail_branch st env o1 o2 body n e m hn hn0 he he0 hm hm0 hsvc
      (hgm hsvc), hsvc, he]
    cases o1 <;> cases o2 <;>
      simp [dispatchBranch, serviceName, providerErrLabel, toJSString, contactCatchResponse]
  · rw [contactHandler_ethereal_branch st env o1 o2 body n e m hn hn0 he he0 hm hm0 hsvc
      (heth hsvc), hsvc, he]
    cases o1 <;> cases o2 <;>
      simp [dispatchBranch, serviceName, providerErrLabel, toJSString, contactCatchResponse]

/-- Witness for C1 at a concrete request whose first send fails with the
SendGrid provider selected. -/
theorem c1_sequential_dispatch_fail_loud_witness :
    ((contactHandler (initializeEmailTransport sendgridOnlyEnv false) {} (.fail "boom") .ok
        janeBody).sends.map (fun a => a.toAddr) = ["contact@spirolink.com"]) ∧
    ((contactHandler (initializeEmailTransport sendgridOnlyEnv false) {} (.fail "boom") .ok
        janeBody).response =
      contactCatchResponse
        (providerErrLabel (initializeEmailTransport sendgridOnlyEnv false).service
          ++ ": " ++ "boom")) := by
  have h := c1_sequential_dispatch_fail_loud sendgridOnlyEnv false
    (initializeEmailTransport sendgridOnlyEnv false) rfl (Or.inl (by decide))
    {} (.fail "boom") .ok janeBody "Jane Doe" "jane@example.com" "Need fiber install"
    rfl (by decide) rfl (by decide) rfl (by decide)
  exact ⟨h.1, (h.2.2.2.2.1 "boom" rfl).1⟩

/-! ## Newline-conversion lemmas -/

lemma nlToBrChars_eq_bind (cs : List Char) :
    nlToBrChars cs = cs.flatMap (fun c => if c = '\n' then ['<', 'b', 'r', '>'] else [c]) := by
  induction cs with
  | nil => rfl
  | cons c cs ih => by_cases h : c = '\n' <;> simp [nlToBrChars, h, ih]

lemma newline_not_mem_nlToBrChars (cs : List Char) : '\n' ∉ nlToBrChars cs := by
  induction cs with
  | nil => simp [nlToBrChars]
  | cons c cs ih =>
    by_cases h : c = '\n'
    · simp [nlToBrChars, h, ih]
    · simp [nlToBrChars, h, Ne.symm h, ih]

/-- C7: the rendered operator notification has subject
`New Contact Form - <serviceType or "General">` and a body embedding the
name, email, phone-or-"N/A", serviceType-or-"N/A", the message with every
newline converted to `<br>`, and the submitter's email after "Reply to:";
the confirmation has the fixed subject and greets the submitter by name. -/
theorem c7_rendered_messages (n e : String) (phone serviceType : JSValue) (m : String) :
    operatorSubject serviceType =
      "New Contact Form - "
        ++ (if truthy serviceType then toJSString serviceType else "General") ∧
    renderEmailBody (.str n) (.str e) phone serviceType (nlToBr m) =
      "\n      <h2>New Contact Form Submission</h2>\n      <p><strong>Name:</strong> "
        ++ n
        ++ "</p>\n      <p><strong>Email:</strong> "
        ++ e
        ++ "</p>\n      <p><strong>Phone:</strong> "
        ++ (if truthy phone then toJSString phone else "N/A")
        ++ "</p>\n      <p><strong>Service:</strong> "
        ++ (if truthy serviceType then toJSString serviceType else "N/A")
        ++ "</p>\n      <p><strong>Message:</strong></p>\n      <p>"
        ++ nlToBr m
        ++ "</p>\n      <hr>\n      <p><em>Reply to: "
        ++ e
        ++ "</em></p>\n    " ∧
    (nlToBr m).data =
      m.data.flatMap (fun c => if c = '\n' then ['<', 'b', 'r', '>'] else [c]) ∧
    '\n' ∉ (nlToBr m).data ∧
    confirmationSubject = "We received your message - SPIROLINK" ∧
    renderConfirmationBody (.str n) =
      "\n      <h3>Hello "
        ++ n
        ++ ",</h3>\n      <p>Thank you for contacting SPIROLINK.</p>\n      <p>We have received your message and will get back to you shortly.</p>\n      <br>\n      <p>Regards,<br>SPIROLINK Team</p>\n    " := by
  refine ⟨rfl, rfl, nlToBrChars_eq_bind m.data, newline_not_mem_nlToBrChars m.data, rfl, rfl⟩

/-- C8: handling a contact request never mutates the provider state, and
replaying the exact same request against the resulting state yields an
identical, independent dispatch (same response and same attempted sends —
no deduplication). -/
theorem c8_no_provider_state_mutation (st : ProviderState) (env : Env)
    (o1 o2 : SendOutcome) (body : ContactBody) :
    (contactHandler st env o1 o2 body).state = st ∧
    contactHandler (contactHandler st env o1 o2 body).state env o1 o2 body =
      contactHandler st env o1 o2 body := by
  have hstate : (contactHandler st env o1 o2 body).state = st := by
    unfold contactHandler
    split
    · rfl
    · split
      · rfl
      · split
        · apply dispatchBranch_state
        · split
          · apply dispatchBranch_state
          · split
            · apply dispatchBranch_state
            · split
              · apply dispatchBranch_state
              · split
                · rfl
                · rfl
  exact ⟨hstate, by rw [hstate]⟩

lemma dispatchBranch_sends_ne_nil (st : ProviderState) (svc : EmailService)
    (prov fromAddr : String) (o1 o2 : SendOutcome)
    (to1 subj1 html1 to2 subj2 html2 : String) :
    (dispatchBranch st svc prov fromAddr o1 o2 to1 subj1 html1 to2 subj2 html2).sends ≠ [] := by
  cases o1 <;> cases o2 <;> simp [dispatchBranch]

/-- C9: `/contact` validation tests only JS falsiness of name, email and
message: the 400 validation outcome occurs exactly when one of the three is
falsy, and a request whose required fields are the whitespace-only string
`" "` passes validation and proceeds to dispatch (a send is attempted). -/
theorem c9_validation_tests_only_falsiness :
    (∀ (st : ProviderState) (env : Env) (o1 o2 : SendOutcome) (body : ContactBody),
        ((contactHandler st env o1 o2 body).response.status = 400 ↔
          (truthy body.name = false ∨ truthy body.email = false ∨
            truthy body.message = false))) ∧
    (∀ (env : Env) (o1 o2 : SendOutcome),
        (contactHandler ⟨.sendgrid, false, false⟩ env o1 o2
            { name := .str " ", email := .str " ", message := .str " " }).response.status
          ≠ 400 ∧
        (contactHandler ⟨.sendgrid, false, false⟩ env o1 o2
            { name := .str " ", email := .str " ", message := .str " " }).sends ≠ []) := by
  constructor
  · intro st env o1 o2 body
    constructor
    · intro h400
      by_contra hcon
      push_neg at hcon
      obtain ⟨h1, h2, h3⟩ := hcon
      exact contactHandler_status_of_truthy st env o1 o2 body
        (Bool.ne_false_iff.mp h1) (Bool.ne_false_iff.mp h2) (Bool.ne_false_iff.mp h3) h400
    · intro h
      rw [contactHandler_of_falsy st env o1 o2 body h]
      rfl
  · intro env o1 o2
    constructor
    · exact contactHandler_status_of_truthy _ _ _ _ _ (by decide) (by decide) (by decide)
    · rw [contactHandler_sendgrid_branch ⟨.sendgrid, false, false⟩ env o1 o2
        { name := .str " ", email := .str " ", message := .str " " } " " " " " "
        rfl (by decide) rfl (by decide) rfl (by decide) rfl]
      apply dispatchBranch_sends_ne_nil

/-! ## Chat endpoint claims -/

lemma jsTrimStr_empty : jsTrimStr "" = "" := rfl

/-- Counterexample to C6 as stated: in the main variant, an upstream
authorization failure (status 401) and an upstream rate-limit failure
(status 429) both surface as HTTP 500, not as 401 / 429. -/
theorem c6_counterexample :
    (chatHandlerMain (.error ⟨Option.some 401, "Unauthorized"⟩) (.str "hello")).status = 500 ∧
    (chatHandlerMain (.error ⟨Option.some 401, "Unauthorized"⟩) (.str "hello")).status ≠ 401 ∧
    (chatHandlerMain (.error ⟨Option.some 429, "Rate limit"⟩) (.str "hello")).status = 500 ∧
    (chatHandlerMain (.error ⟨Option.some 429, "Rate limit"⟩) (.str "hello")).status ≠ 429 := by
  decide

/-- C6 (amended): the main variant's `POST /chat` returns 400 for a falsy or
blank-after-trim message, and maps every upstream completion failure —
authorization and rate-limit failures included — to HTTP 500 carrying the
error's message; only the first variant's handler distinguishes upstream 401
and 429 by returning matching client statuses. -/
theorem c6_chat_status_mapping (e : ChatError) (s : String) (hs : jsTrimStr s ≠ "") :
    chatHandlerMain (.error e) (.str s) =
      { status := 500, success := false, error := Option.some e.message } ∧
    (∀ v : JSValue, truthy v = false →
        chatHandlerMain (.error e) v = chatRequiredResponse) ∧
    (∀ t : String, jsTrimStr t = "" →
        chatHandlerMain (.error e) (.str t) = chatRequiredResponse) ∧
    chatHandlerFirst (.error ⟨Option.some 401, e.message⟩) (.str s) =
      { status := 401, success := false,
        error := Option.some "Invalid API key - check your OpenAI account" } ∧
    chatHandlerFirst (.error ⟨Option.some 429, e.message⟩) (.str s) =
      { status := 429, success := false,
        error := Option.some
          "OpenAI rate limit exceeded. Enable billing on your OpenAI account." } ∧
    (e.status ≠ Option.some 401 → e.status ≠ Option.some 429 →
        chatHandlerFirst (.error e) (.str s) =
          { status := 500, success := false, error := Option.some e.message }) := by
  have hs0 : s ≠ "" := fun h => hs (by rw [h]; exact jsTrimStr_empty)
  refine ⟨?_, ?_, ?_, ?_, ?_, ?_⟩
  · simp [chatHandlerMain, truthy, hs0, jsTrim, hs]
  · intro v hv
    unfold chatHandlerMain
    simp [hv]
  · intro t ht
    by_cases h0 : t = "" <;> simp [chatHandlerMain, truthy, h0, jsTrim, ht]
  · simp [chatHandlerFirst, truthy, hs0, hs]
  · simp [chatHandlerFirst, truthy, hs0, hs]
  · intro h401 h429
    simp [chatHandlerFirst, truthy, hs0, hs, h401, h429]

/-- Witness for C6 (amended) at a concrete upstream failure. -/
theorem c6_chat_status_mapping_witness :
    chatHandlerMain (.error ⟨Option.some 503, "Service Unavailable"⟩) (.str "hello") =
      { status := 500, success := false, error := Option.some "Service Unavailable" } ∧
    chatHandlerFirst (.error ⟨Option.some 401, "Service Unavailable"⟩) (.str "hello") =
      { status := 401, success := false,
        error := Option.some "Invalid API key - check your OpenAI account" } := by
  have h := c6_chat_status_mapping ⟨Option.some 503, "Service Unavailable"⟩ "hello" (by decide)
  exact ⟨h.1, h.2.2.2.1⟩

/-- C10: a truthy non-string chat message passes the falsiness check, the call
to `message.trim()` throws, and the main handler's catch returns HTTP 500
with the thrown TypeError's message — not the 400 validation response. -/
theorem c10_chat_nonstring_message (upstream : Except ChatError (Option String))
    (v : JSValue) (ht : truthy v = true) (hv : isStr v = false) :
    chatHandlerMain upstream v =
      { status := 500, success := false,
        error := Option.some "message.trim is not a function" } ∧
    chatHandlerMain upstream v ≠ chatRequiredResponse ∧
    (chatHandlerMain upstream v).status = 500 := by
  have h : chatHandlerMain upstream v =
      { status := 500, success := false,
        error := Option.some "message.trim is not a function" } := by
    cases v <;> simp_all [chatHandlerMain, truthy, isStr, jsTrim]
  refine ⟨h, by rw [h]; decide, by rw [h]⟩

/-- Witness for C10 at a numeric message. -/
theorem c10_chat_nonstring_message_witness :
    chatHandlerMain (.ok Option.none) (.num 5) =
      { status := 500, success := false,
        error := Option.some "message.trim is not a function" } :=
  (c10_chat_nonstring_message (.ok Option.none) (.num 5) (by decide) (by decide)).1

/-- Witness for C7 at a concrete request with a service type and a newline in
the message. -/
theorem c7_rendered_messages_witness :
    operatorSubject (JSValue.str "Fiber") = "New Contact Form - Fiber" ∧
    (nlToBr "a\nb").data = ['a', '<', 'b', 'r', '>', 'b'] ∧
    '\n' ∉ (nlToBr "a\nb").data := by
  have h := c7_rendered_messages "Jane" "a@b" .undefined (.str "Fiber") "a\nb"
  refine ⟨h.1.trans (by decide), ?_, h.2.2.2.1⟩
  rw [show (nlToBr "a\nb").data =
    ("a\nb" : String).data.flatMap
      (fun c => if c = '\n' then ['<', 'b', 'r', '>'] else [c]) from h.2.2.1]
  decide

/-- Witness for C8 at the spec's concrete scenario request. -/
theorem c8_no_provider_state_mutation_witness :
    (contactHandler ⟨.sendgrid, false, false⟩ {} .ok .ok janeBody).state =
      ⟨.sendgrid, false, false⟩ :=
  (c8_no_provider_state_mutation ⟨.sendgrid, false, false⟩ {} .ok .ok janeBody).1

/-- Witness for C9: a whitespace-only request passes validation and reaches a
dispatch attempt. -/
theorem c9_validation_tests_only_falsiness_witness :
    (contactHandler ⟨.sendgrid, false, false⟩ {} .ok .ok
        { name := .str " ", email := .str " ", message := .str " " }).sends ≠ [] :=
  (c9_validation_tests_only_falsiness.2 {} .ok .ok).2

end Spirolink
